import Mathlib

/-!
# PLDM panel-function dispatch (`pldm_fw.cpp`, `pldm_fw.hpp`)

A shallow embedding of `panel::PldmFramework`: the instance-id allocator
(`getInstanceID`, `freeInstanceID`), the transport session (`openTransport`,
`closeTransport`), the effecter locator (`fetchPanelEffecterStateSet`), the
request builder (`prepareSetEffecterReq`) and the dispatcher
(`sendPanelFunctionToPhyp`).

Conventions of the embedding.

* Pointer members are `Option Handle`; `none` is `nullptr`.
* Unsigned machine integers are `Nat`; a narrowing conversion is written with
  an explicit `% 256`.  Return codes are `Int`.
* Calls into libpldm, `utils::getPDR` and `utils::createPEL` are external.
  Their results are supplied by an `Env` value and every call is recorded,
  in program order, in a trace of `Event`s.
* A member function is a function from the object state to a `Run`: the
  value returned or the exception thrown, the object state afterwards and
  the events emitted.
* Output on `std::cout` is not part of the trace.
-/

namespace panel

/-! ## Constants -/

/-- A non-null pointer value. -/
abbrev Handle := Nat

namespace constants

/-- The value of `constants::PLDM_INST_ID_MAX`, as stated by the comment in
`freeInstanceID`: "constants::PLDM_INST_ID_MAX is 32 (0 to 31)". -/
def PLDM_INST_ID_MAX : Nat := 32

end constants

/-- The value of `EAGAIN` in `errno.h` on Linux. -/
def EAGAIN : Int := 11

/-- Host mctp eid (`hostEid`). -/
def hostEid : Nat := 9

/-- Terminus ID to which the packet has to be sent (`tid = hostEid`). -/
def tid : Nat := hostEid

/-- The constant `phypTerminusID`. -/
def phypTerminusID : Nat := 208

/-- The constant `frontPanelBoardEntityId`. -/
def frontPanelBoardEntityId : Nat := 32837

/-- The constant `stateIdToEnablePanelFunc`. -/
def stateIdToEnablePanelFunc : Nat := 32778

/-- The libpldm enumerator `PLDM_NO_CHANGE` of `enum set_request`. -/
def PLDM_NO_CHANGE : Nat := 0

/-- The libpldm enumerator `PLDM_REQUEST_SET` of `enum set_request`. -/
def PLDM_REQUEST_SET : Nat := 1

/-- The libpldm completion code `PLDM_SUCCESS`. -/
def PLDM_SUCCESS : Int := 0

/-- The libpldm enumerator `PLDM_REQUESTER_SUCCESS`. -/
def PLDM_REQUESTER_SUCCESS : Int := 0

/-- The size of the packed libpldm struct `pldm_msg_hdr`, in bytes. -/
def sizeof_pldm_msg_hdr : Nat := 3

/-- The size of the packed libpldm struct `set_effecter_state_field`. -/
def sizeof_set_effecter_state_field : Nat := 2

/-! ## Data model -/

/-- The libpldm struct `state_effecter_possible_states`, one entry of the
possible-state-set list of a state effecter PDR. -/
structure state_effecter_possible_states where
  state_set_id : Nat
  possible_states_size : Nat
  states : List Nat
  deriving DecidableEq, Repr

/-- The view of a PDR buffer as the libpldm struct `pldm_state_effecter_pdr`,
restricted to the members read by this program.  The struct declares
`possible_states[1]`, so the view always holds a first possible-states entry:
`possible_states` is the entry the pointer `possibleStates` refers to and
`following` are the entries laid out after it. -/
structure pldm_state_effecter_pdr where
  effecter_id : Nat
  composite_effecter_count : Nat
  possible_states : state_effecter_possible_states
  following : List state_effecter_possible_states
  deriving DecidableEq, Repr

/-- The possible-state-set list of a record, in layout order. -/
def pldm_state_effecter_pdr.stateSets (pdr : pldm_state_effecter_pdr) :
    List state_effecter_possible_states :=
  pdr.possible_states :: pdr.following

/-- The ids of the possible-state-set list of a record, in layout order. -/
def pldm_state_effecter_pdr.stateSetIds (pdr : pldm_state_effecter_pdr) : List Nat :=
  pdr.stateSets.map (fun ps => ps.state_set_id)

/-- A record is well formed when its fields fit their machine types and the
possible-state-set list has exactly `composite_effecter_count` entries. -/
def pldm_state_effecter_pdr.WellFormed (pdr : pldm_state_effecter_pdr) : Prop :=
  pdr.effecter_id < 65536 ∧ pdr.composite_effecter_count < 256 ∧
    pdr.stateSets.length = pdr.composite_effecter_count ∧
    ∀ id ∈ pdr.stateSetIds, id < 65536

instance (pdr : pldm_state_effecter_pdr) : Decidable pdr.WellFormed := by
  unfold pldm_state_effecter_pdr.WellFormed
  infer_instance

/-- The type `types::PdrList`: the PDRs returned by `utils::getPDR`, each
taken through the view that `fetchPanelEffecterStateSet` casts it to. -/
abbrev PdrList := List pldm_state_effecter_pdr

/-- The libpldm struct `set_effecter_state_field`. -/
structure set_effecter_state_field where
  set_request : Nat
  effecter_state : Nat
  deriving DecidableEq, Repr

/-- The field `{PLDM_NO_CHANGE, 0}`. -/
def NoChange : set_effecter_state_field := ⟨PLDM_NO_CHANGE, 0⟩

/-- The field `{PLDM_REQUEST_SET, function}`. -/
def RequestSet (function : Nat) : set_effecter_state_field := ⟨PLDM_REQUEST_SET, function⟩

/-- The type `types::PldmPacket`: a byte vector. -/
abbrev PldmPacket := List Nat

/-- The exception classes thrown in this file. -/
inductive ExnKind where
  | runtime_error
  | FunctionFailure
  | other
  deriving DecidableEq, Repr

/-- Modelled from the spec: `exception.hpp` is not part of the sources.  Every
failure of steps 1-6 "is caught at the dispatcher boundary", so
`FunctionFailure` and the exceptions of `utils::getPDR` are taken to derive
from `std::exception`; an exception carries its class and its `what()`. -/
structure Exn where
  kind : ExnKind
  what : String
  deriving DecidableEq, Repr

/-- The three out-parameters of `fetchPanelEffecterStateSet`. -/
structure EffecterRef where
  effecterId : Nat
  effecterCount : Nat
  panelEffecterPos : Nat
  deriving DecidableEq, Repr

/-! ## Effecter locator -/

/-- The exception thrown when the loop of `fetchPanelEffecterStateSet` ends. -/
def effecterNotFound : Exn :=
  ⟨ExnKind.FunctionFailure, "State set ID to enable panel function could not be found in PDR."⟩

/-- The member function `fetchPanelEffecterStateSet`.  `pdrs.front()` requires
a non-empty list.  The loop runs `offset` over `0 .. composite_effecter_count`
and returns at the first offset whose test succeeds; the test reads
`possibleStates->state_set_id`, and `possibleStates` is not changed by the
loop.  `panelEffecterPos = offset` narrows the `int` to a byte. -/
def fetchPanelEffecterStateSet (pdrs : PdrList) (h : pdrs ≠ []) : Except Exn EffecterRef :=
  let pdr := pdrs.head h
  let possibleStates := pdr.possible_states
  match (List.range pdr.composite_effecter_count).find?
      (fun _ => possibleStates.state_set_id == stateIdToEnablePanelFunc) with
  | some offset =>
      .ok { effecterId := pdr.effecter_id
            effecterCount := pdr.composite_effecter_count
            panelEffecterPos := offset % 256 }
  | none => .error effecterNotFound

/-! ## State-field loop of the request builder -/

/-- The loop `for (types::Byte pos = 0; panelEffecterPos <= effecterCount; pos++)`
of `prepareSetEffecterReq`, started at `pos` with `stateField` already built.
Each unit of fuel pays for one evaluation of the loop condition; `none` means
the fuel ran out.  `pos++` wraps at 256. -/
def stateFieldLoop (effecterCount panelEffecterPos function : Nat) :
    Nat → Nat → List set_effecter_state_field → Option (List set_effecter_state_field)
  | 0, _, _ => none
  | fuel + 1, pos, stateField =>
      if panelEffecterPos ≤ effecterCount then
        if pos = panelEffecterPos then
          some (stateField ++ [RequestSet function])
        else
          stateFieldLoop effecterCount panelEffecterPos function fuel ((pos + 1) % 256)
            (stateField ++ [NoChange])
      else
        some stateField

/-- The vector `stateField` built by `prepareSetEffecterReq`: the loop started
at `pos = 0` on the empty vector.  A byte `pos` takes 256 values, so 257
evaluations of the condition suffice when `panelEffecterPos` is a byte. -/
def buildStateField (effecterCount panelEffecterPos function : Nat) :
    Option (List set_effecter_state_field) :=
  stateFieldLoop effecterCount panelEffecterPos function 257 0 []

/-! ## Object state, environment and traces -/

/-- The data members of `PldmFramework`. -/
structure PldmFramework where
  pldmInstanceDb : Option Handle
  pldmTransport : Option Handle
  mctpSocket : Option Handle
  deriving DecidableEq, Repr

/-- The state built by the defaulted constructor: every member is `nullptr`. -/
def PldmFramework.init : PldmFramework :=
  { pldmInstanceDb := none, pldmTransport := none, mctpSocket := none }

/-- The private member functions called by `sendPanelFunctionToPhyp`. -/
inductive Method where
  | getInstanceID
  | prepareSetEffecterReq (instanceId function : Nat)
  | openTransport
  | closeTransport
  | freeInstanceID (instanceID : Nat)
  deriving DecidableEq, Repr

/-- The observable steps of a run: calls of member functions made by the
dispatcher, calls to the external collaborators and lines on `std::cerr`. -/
inductive Event where
  | call (m : Method)
  | getPDR (terminusId entityId stateSetId : Nat) (pdrMethod : String)
  | pldm_instance_db_init_default
  | pldm_instance_id_alloc (tid : Nat)
  | sleep_for (milliseconds : Nat)
  | pldm_instance_id_free (tid instanceID : Nat)
  | pldm_instance_db_destroy
  | encode_set_state_effecter_states_req (instanceId effecterId effecterCount : Nat)
      (stateField : List set_effecter_state_field)
  | pldm_transport_mctp_demux_init
  | pldm_transport_mctp_demux_map_tid (tid : Nat)
  | pldm_transport_mctp_demux_core
  | pldm_transport_mctp_demux_init_pollfd
  | pldm_transport_send_msg (tid : Nat) (packet : PldmPacket)
  | pldm_transport_mctp_demux_destroy
  | createPEL (errIntf severity : String) (additionalData : List (String × String))
  | cerr (text : String)
  deriving DecidableEq, Repr

/-- The results of the external calls made during one invocation of a member
function. -/
structure Env where
  /-- The list returned, or the exception thrown, by `utils::getPDR`. -/
  getPDR : Except Exn PdrList
  /-- The return code of `pldm_instance_db_init_default` and the pointer found
  in `pldmInstanceDb` after the call. -/
  pldm_instance_db_init_default : Int × Option Handle
  /-- For the call number (0 is the first call) and the current `instanceID`:
  the return code of `pldm_instance_id_alloc` and `instanceID` after it. -/
  pldm_instance_id_alloc : Nat → Nat → Int × Nat
  /-- The return code of `pldm_instance_id_free`, by call number. -/
  pldm_instance_id_free : Nat → Int
  /-- The return code of `pldm_instance_db_destroy`. -/
  pldm_instance_db_destroy : Int
  /-- The return code of `encode_set_state_effecter_states_req` and the bytes
  it writes to the start of the message buffer. -/
  encode_set_state_effecter_states_req :
    Nat → Nat → Nat → List set_effecter_state_field → Int × List Nat
  /-- The return code of `pldm_transport_mctp_demux_init` and the pointer
  found in `mctpSocket` after the call. -/
  pldm_transport_mctp_demux_init : Int × Option Handle
  /-- The return code of `pldm_transport_mctp_demux_map_tid`. -/
  pldm_transport_mctp_demux_map_tid : Int
  /-- The pointer returned by `pldm_transport_mctp_demux_core`. -/
  pldm_transport_mctp_demux_core : Option Handle
  /-- The return code of `pldm_transport_mctp_demux_init_pollfd` and
  `pollfd.fd` after the call. -/
  pldm_transport_mctp_demux_init_pollfd : Int × Int
  /-- The return code of `pldm_transport_send_msg`. -/
  pldm_transport_send_msg : PldmPacket → Int
  /-- The value of `errno` read when the send failure is described. -/
  errno : Int
  /-- The text `strerror(errno)` read by the exception handler. -/
  strerror : String
  /-- The C string found at `literal + n` when `n` exceeds the length of the
  string literal (the bytes lie outside the literal). -/
  beyondLiteral : Nat → String

/-- How a member function can fail to return: a C++ exception, or the
embedding ran out of fuel in a loop. -/
inductive Failure where
  | thrown (e : Exn)
  | outOfFuel
  deriving DecidableEq, Repr

/-- One run of a member function: its result, the object state afterwards and
the events it emitted, in order. -/
structure Run (α : Type) where
  result : Except Failure α
  state : PldmFramework
  trace : List Event

/-- The expression `literal + n` for a string literal and an `int`: the C
string starting `n` characters into the literal.  The literal with its
terminator covers the offsets up to its length; what a larger offset reads is
not determined by the program and is taken from the environment. -/
def cstrPlus (env : Env) (literal : String) (n : Nat) : String :=
  if n ≤ literal.length then literal.drop n else env.beyondLiteral n

namespace utils

/-- Modelled from the spec: `utils::getPDR` (`utils.hpp` is not part of the
sources) is the collaborator `fetchDescriptorRecord(peerId, entityId,
stateSetMarker) -> sequence of bytes`, "external; may return empty".  The call
is recorded; it yields the list, or the exception, fixed by the environment. -/
def getPDR (env : Env) (terminusId entityId stateSetId : Nat) (pdrMethod : String) :
    Except Exn PdrList × List Event :=
  (env.getPDR, [Event.getPDR terminusId entityId stateSetId pdrMethod])

/-- Modelled from the spec: `utils::createPEL` (`utils.hpp` is not part of the
sources) is the collaborator `reportDiagnostic(errorCode, severity, context)
-> ()`, "external, fire-and-forget".  The call is recorded and returns. -/
def createPEL (errIntf severity : String) (additionalData : List (String × String)) :
    List Event :=
  [Event.createPEL errIntf severity additionalData]

end utils

/-! ## Instance-id allocator -/

/-- The member function `getInstanceID`. -/
def getInstanceID (env : Env) (s : PldmFramework) : Run Nat :=
  let rc := env.pldm_instance_db_init_default.1
  let s1 := { s with pldmInstanceDb := env.pldm_instance_db_init_default.2 }
  if rc ≠ 0 then
    { result := .error (.thrown ⟨ExnKind.runtime_error,
        "Call to pldm_instance_db_init_default failed with return code " ++ toString rc⟩)
      state := s1
      trace := [Event.pldm_instance_db_init_default] }
  else
    let instanceID := constants.PLDM_INST_ID_MAX + 1
    let a1 := env.pldm_instance_id_alloc 0 instanceID
    if a1.1 = -EAGAIN then
      let a2 := env.pldm_instance_id_alloc 1 a1.2
      { result :=
          if a2.1 ≠ 0 then
            .error (.thrown ⟨ExnKind.FunctionFailure,
              "Call to pldm_instance_id_alloc failed with return code " ++ toString a2.1⟩)
          else .ok a2.2
        state := s1
        trace := [Event.pldm_instance_db_init_default, Event.pldm_instance_id_alloc tid,
          Event.sleep_for 100, Event.pldm_instance_id_alloc tid] }
    else
      { result :=
          if a1.1 ≠ 0 then
            .error (.thrown ⟨ExnKind.FunctionFailure,
              "Call to pldm_instance_id_alloc failed with return code " ++ toString a1.1⟩)
          else .ok a1.2
        state := s1
        trace := [Event.pldm_instance_db_init_default, Event.pldm_instance_id_alloc tid] }

/-- The line written to `std::cerr` when `pldm_instance_id_free` fails. -/
def freeFailedText (instanceID : Nat) (rc : Int) : String :=
  "pldm_instance_id_free failed to free id = " ++ toString instanceID ++
    " of tid = " ++ toString tid ++ " rc = " ++ toString rc

/-- The block of `freeInstanceID` guarded by
`instanceID < constants::PLDM_INST_ID_MAX`: the events it emits. -/
def freeIdBlock (env : Env) (instanceID : Nat) : List Event :=
  if instanceID < constants.PLDM_INST_ID_MAX then
    let rc := env.pldm_instance_id_free 0
    if rc = -EAGAIN then
      let rc2 := env.pldm_instance_id_free 1
      [Event.pldm_instance_id_free tid instanceID, Event.sleep_for 100,
        Event.pldm_instance_id_free tid instanceID] ++
        (if rc2 ≠ 0 then [Event.cerr (freeFailedText instanceID rc2)] else [])
    else
      [Event.pldm_instance_id_free tid instanceID] ++
        (if rc ≠ 0 then [Event.cerr (freeFailedText instanceID rc)] else [])
  else []

/-- The member function `freeInstanceID`. -/
def freeInstanceID (env : Env) (instanceID : Nat) (s : PldmFramework) : Run Unit :=
  match s.pldmInstanceDb with
  | none => { result := .ok (), state := s, trace := [] }
  | some _ =>
      let rc := env.pldm_instance_db_destroy
      { result := .ok ()
        state := { s with pldmInstanceDb := none }
        trace := freeIdBlock env instanceID ++ [Event.pldm_instance_db_destroy] ++
          (if rc ≠ 0 then
            [Event.cerr ("pldm_instance_db_destroy failed with rc, " ++ toString rc ++ "\n")]
          else []) }

/-! ## Transport session -/

/-- The member function `openTransport`. -/
def openTransport (env : Env) (s : PldmFramework) : Run Int :=
  match s.pldmTransport with
  | some _ =>
      { result := .error (.thrown ⟨ExnKind.FunctionFailure,
          "pldmTransport is already opened. Requested action is not allowed."⟩)
        state := s
        trace := [] }
  | none =>
      let rc := env.pldm_transport_mctp_demux_init.1
      let s1 := { s with mctpSocket := env.pldm_transport_mctp_demux_init.2 }
      if rc ≠ 0 then
        { result := .error (.thrown ⟨ExnKind.FunctionFailure,
            "Failed to init MCTP demux transport"⟩)
          state := s1
          trace := [Event.pldm_transport_mctp_demux_init,
            Event.cerr ("Call to pldm_transport_mctp_demux_init failed with rc = " ++
              toString rc)] }
      else
        let rc := env.pldm_transport_mctp_demux_map_tid
        if rc ≠ 0 then
          { result := .error (.thrown ⟨ExnKind.FunctionFailure,
              "Call to pldm_transport_mctp_demux_map_tid failed with rc = " ++ toString rc⟩)
            state := s1
            trace := [Event.pldm_transport_mctp_demux_init,
              Event.pldm_transport_mctp_demux_map_tid tid,
              Event.cerr ("Call to pldm_transport_mctp_demux_map_tid failed with rc = " ++
                toString rc)] }
        else
          let s2 := { s1 with pldmTransport := env.pldm_transport_mctp_demux_core }
          match env.pldm_transport_mctp_demux_core with
          | none =>
              { result := .error (.thrown ⟨ExnKind.FunctionFailure,
                  "openTransport: Failed to get pldm_transport object."⟩)
                state := s2
                trace := [Event.pldm_transport_mctp_demux_init,
                  Event.pldm_transport_mctp_demux_map_tid tid,
                  Event.pldm_transport_mctp_demux_core] }
          | some _ =>
              let rc := env.pldm_transport_mctp_demux_init_pollfd.1
              if rc ≠ 0 then
                { result := .error (.thrown ⟨ExnKind.FunctionFailure,
                    "openTransport: Failed to get pollfd. rc = " ++ toString rc⟩)
                  state := s2
                  trace := [Event.pldm_transport_mctp_demux_init,
                    Event.pldm_transport_mctp_demux_map_tid tid,
                    Event.pldm_transport_mctp_demux_core,
                    Event.pldm_transport_mctp_demux_init_pollfd,
                    Event.cerr ("openTransport: Failed to get pollfd. rc = " ++ toString rc)] }
              else
                { result := .ok env.pldm_transport_mctp_demux_init_pollfd.2
                  state := s2
                  trace := [Event.pldm_transport_mctp_demux_init,
                    Event.pldm_transport_mctp_demux_map_tid tid,
                    Event.pldm_transport_mctp_demux_core,
                    Event.pldm_transport_mctp_demux_init_pollfd] }

/-- The member function `closeTransport`. -/
def closeTransport (s : PldmFramework) : Run Unit :=
  let s1 := match s.mctpSocket with
    | some _ => { s with mctpSocket := none }
    | none => s
  let s2 := match s1.pldmTransport with
    | some _ => { s1 with pldmTransport := none }
    | none => s1
  { result := .ok ()
    state := s2
    trace := match s.mctpSocket with
      | some _ => [Event.pldm_transport_mctp_demux_destroy]
      | none => [] }

/-! ## Request builder -/

/-- The buffer `request` after the encoder wrote `msg` to its start: the
vector keeps its size. -/
def writeMsg (request msg : PldmPacket) : PldmPacket :=
  (msg ++ request.drop msg.length).take request.length

/-- The member function `prepareSetEffecterReq`. -/
def prepareSetEffecterReq (env : Env) (pdrs : PdrList) (h : pdrs ≠ [])
    (instanceId function : Nat) (s : PldmFramework) : Run PldmPacket :=
  match fetchPanelEffecterStateSet pdrs h with
  | .error e => { result := .error (.thrown e), state := s, trace := [] }
  | .ok ref =>
      let effecterId := ref.effecterId
      let effecterCount := ref.effecterCount
      let panelEffecterPos := ref.panelEffecterPos
      let request : PldmPacket := List.replicate
        (sizeof_pldm_msg_hdr + 2 + 1 + effecterCount * sizeof_set_effecter_state_field) 0
      match buildStateField effecterCount panelEffecterPos function with
      | none => { result := .error .outOfFuel, state := s, trace := [] }
      | some stateField =>
          let enc := env.encode_set_state_effecter_states_req instanceId effecterId
            effecterCount stateField
          let rc := enc.1
          if rc ≠ PLDM_SUCCESS then
            { result := .error (.thrown ⟨ExnKind.FunctionFailure,
                "pldm: encode set effecter states request returned error."⟩)
              state := s
              trace := [Event.encode_set_state_effecter_states_req instanceId effecterId
                  effecterCount stateField,
                Event.cerr ("Return code = " ++ toString rc)] }
          else
            { result := .ok (writeMsg request enc.2)
              state := s
              trace := [Event.encode_set_state_effecter_states_req instanceId effecterId
                effecterCount stateField] }

/-! ## Dispatcher -/

/-- The exception thrown for an empty PDR list. -/
def emptyPdr : Exn :=
  ⟨ExnKind.runtime_error, "Empty PDR returned for front panel board entity."⟩

/-- The exception thrown when `pldm_transport_send_msg` fails.  The first
operand is the literal plus `static_cast<int>(funcNumber)`. -/
def sendFailed (env : Env) (funcNumber : Nat) (rc fd : Int) : Exn :=
  ⟨ExnKind.runtime_error,
    cstrPlus env "pldm: pldm_transport_send_msg failed for panel function " funcNumber ++
      ". Return code = " ++ toString rc ++ ". File descriptor = " ++ toString fd ++
      ". Errno = " ++ toString env.errno⟩

/-- The diagnostic reported for the exception `e`. -/
def hostCommunicationError (env : Env) (e : Exn) : Event :=
  Event.createPEL "com.ibm.Panel.Error.HostCommunicationError"
    "xyz.openbmc_project.Logging.Entry.Level.Warning"
    [("DESCRIPTION", "panel to host communication failed. Error: " ++ e.what),
      ("ERRNO:", env.strerror)]

/-- The handler `catch (const std::exception& e)` of `sendPanelFunctionToPhyp`:
it fills `additionalData` and calls `utils::createPEL`. -/
def sendPanelFunctionToPhyp.handler (env : Env) (e : Exn) : List Event :=
  let additionalData :=
    [("DESCRIPTION", "panel to host communication failed. Error: " ++ e.what),
      ("ERRNO:", env.strerror)]
  utils.createPEL "com.ibm.Panel.Error.HostCommunicationError"
    "xyz.openbmc_project.Logging.Entry.Level.Warning" additionalData

/-- What the `try` block of `sendPanelFunctionToPhyp` leaves behind: its
result, the local variable `instance`, the object state and the trace. -/
structure TryRun where
  result : Except Failure Unit
  instanceId : Nat
  state : PldmFramework
  trace : List Event

/-- The `try` block of `sendPanelFunctionToPhyp`, entered with the local
variable `instance` holding `instanceId`. -/
def sendPanelFunctionToPhyp.tryBlock (env : Env) (funcNumber : Nat) (instanceId : Nat)
    (s : PldmFramework) : TryRun :=
  let fetched := utils.getPDR env phypTerminusID frontPanelBoardEntityId
    stateIdToEnablePanelFunc "FindStateEffecterPDR"
  let t0 := fetched.2
  match fetched.1 with
  | .error e => { result := .error (.thrown e), instanceId := instanceId, state := s, trace := t0 }
  | .ok pdrs =>
      if h : pdrs = [] then
        { result := .error (.thrown emptyPdr), instanceId := instanceId, state := s, trace := t0 }
      else
        let r1 := getInstanceID env s
        let t1 := t0 ++ [Event.call Method.getInstanceID] ++ r1.trace
        match r1.result with
        | .error f => { result := .error f, instanceId := instanceId, state := r1.state, trace := t1 }
        | .ok id =>
            let r2 := prepareSetEffecterReq env pdrs h id funcNumber r1.state
            let t2 := t1 ++ [Event.call (Method.prepareSetEffecterReq id funcNumber)] ++ r2.trace
            match r2.result with
            | .error f => { result := .error f, instanceId := id, state := r2.state, trace := t2 }
            | .ok packet =>
                if packet = [] then
                  { result := .error (.thrown ⟨ExnKind.runtime_error,
                      "pldm:SetStateEffecterStates request message empty"⟩)
                    instanceId := id, state := r2.state, trace := t2 }
                else
                  let r3 := openTransport env r2.state
                  let t3 := t2 ++ [Event.call Method.openTransport] ++ r3.trace
                  match r3.result with
                  | .error f =>
                      { result := .error f, instanceId := id, state := r3.state, trace := t3 }
                  | .ok fd =>
                      let pldmTID := hostEid
                      let rc := env.pldm_transport_send_msg packet
                      let t4 := t3 ++ [Event.pldm_transport_send_msg pldmTID packet]
                      if rc ≠ PLDM_REQUESTER_SUCCESS then
                        { result := .error (.thrown (sendFailed env funcNumber rc fd))
                          instanceId := id, state := r3.state, trace := t4 }
                      else
                        { result := .ok (), instanceId := id, state := r3.state, trace := t4 }

/-- The member function `sendPanelFunctionToPhyp`.  An exception of the `try`
block is handled by one `createPEL` call; then `closeTransport` and
`freeInstanceID(instance)` run.  Running out of fuel is not an exception and
is passed on as it is. -/
def sendPanelFunctionToPhyp (env : Env) (funcNumber : Nat) (s : PldmFramework) : Run Unit :=
  let t := sendPanelFunctionToPhyp.tryBlock env funcNumber (constants.PLDM_INST_ID_MAX + 1) s
  match t.result with
  | .error .outOfFuel => { result := .error .outOfFuel, state := t.state, trace := t.trace }
  | r =>
      let handler := match r with
        | .error (.thrown e) => sendPanelFunctionToPhyp.handler env e
        | _ => []
      let c := closeTransport t.state
      let f := freeInstanceID env t.instanceId c.state
      { result := .ok ()
        state := f.state
        trace := t.trace ++ handler ++ [Event.call Method.closeTransport] ++ c.trace ++
          [Event.call (Method.freeInstanceID t.instanceId)] ++ f.trace }

/-! ## Classifying events -/

/-- Calls of the two cleanup member functions. -/
def Event.isCleanupCall : Event → Bool
  | .call .closeTransport => true
  | .call (.freeInstanceID _) => true
  | _ => false

/-- Reports to the logging collaborator. -/
def Event.isDiagnostic : Event → Bool
  | .createPEL _ _ _ => true
  | _ => false

/-- Operations of the instance-id backend: db init, alloc, free, destroy. -/
def Event.isAllocatorOp : Event → Bool
  | .pldm_instance_db_init_default => true
  | .pldm_instance_id_alloc _ => true
  | .pldm_instance_id_free _ _ => true
  | .pldm_instance_db_destroy => true
  | _ => false

/-- Operations of the transport backend. -/
def Event.isTransportOp : Event → Bool
  | .pldm_transport_mctp_demux_init => true
  | .pldm_transport_mctp_demux_map_tid _ => true
  | .pldm_transport_mctp_demux_core => true
  | .pldm_transport_mctp_demux_init_pollfd => true
  | .pldm_transport_send_msg _ _ => true
  | .pldm_transport_mctp_demux_destroy => true
  | _ => false

/-- Calls of the encoder. -/
def Event.isEncode : Event → Bool
  | .encode_set_state_effecter_states_req _ _ _ _ => true
  | _ => false

/-- Calls of `pldm_instance_id_alloc`. -/
def Event.isIdAlloc : Event → Bool
  | .pldm_instance_id_alloc _ => true
  | _ => false

/-- Calls of `pldm_instance_id_free`. -/
def Event.isIdFree : Event → Bool
  | .pldm_instance_id_free _ _ => true
  | _ => false

/-- Calls of `pldm_instance_db_destroy`. -/
def Event.isDbDestroy : Event → Bool
  | .pldm_instance_db_destroy => true
  | _ => false

/-! ## Concrete inputs -/

/-- A well-formed record with two state sets; the marker is the second. -/
def pdrMarkerSecond : pldm_state_effecter_pdr :=
  { effecter_id := 12
    composite_effecter_count := 2
    possible_states := ⟨1, 1, [3]⟩
    following := [⟨stateIdToEnablePanelFunc, 1, [3]⟩] }

/-- A well-formed record with three state sets; the marker is the first. -/
def pdrMarkerFirst : pldm_state_effecter_pdr :=
  { effecter_id := 12
    composite_effecter_count := 3
    possible_states := ⟨stateIdToEnablePanelFunc, 1, [3]⟩
    following := [⟨7, 1, [3]⟩, ⟨8, 1, [1]⟩] }

/-- A well-formed record with two state sets, none of them the marker. -/
def pdrNoMarker : pldm_state_effecter_pdr :=
  { effecter_id := 12
    composite_effecter_count := 2
    possible_states := ⟨1, 1, [3]⟩
    following := [⟨2, 1, [3]⟩] }

/-- An environment in which every external call succeeds; `utils::getPDR`
returns `pdrs` and the allocator hands out id 4. -/
def envAllOk (pdrs : PdrList) : Env :=
  { getPDR := .ok pdrs
    pldm_instance_db_init_default := (0, some 1)
    pldm_instance_id_alloc := fun _ _ => (0, 4)
    pldm_instance_id_free := fun _ => 0
    pldm_instance_db_destroy := 0
    encode_set_state_effecter_states_req := fun _ _ _ _ => (0, [])
    pldm_transport_mctp_demux_init := (0, some 2)
    pldm_transport_mctp_demux_map_tid := 0
    pldm_transport_mctp_demux_core := some 3
    pldm_transport_mctp_demux_init_pollfd := (0, 5)
    pldm_transport_send_msg := fun _ => 0
    errno := 0
    strerror := "Success"
    beyondLiteral := fun _ => "" }

/-! ## Vocabulary of the statements -/

/-- Whether a run ended in a failure. -/
def Run.raised {α : Type} (r : Run α) : Bool :=
  match r.result with
  | .ok _ => false
  | .error _ => true

/-- The id `sendPanelFunctionToPhyp` holds in its local variable `instance`
when the cleanup starts: the id returned by `getInstanceID` when it was called
(the PDR list was fetched and is not empty) and returned, and the initial
value `PLDM_INST_ID_MAX + 1` otherwise. -/
def heldInstanceId (env : Env) (s : PldmFramework) : Nat :=
  match env.getPDR with
  | .ok (_ :: _) =>
      match (getInstanceID env s).result with
      | .ok id => id
      | .error _ => constants.PLDM_INST_ID_MAX + 1
  | _ => constants.PLDM_INST_ID_MAX + 1

/-- Steps 1-6 all succeed: the PDR list is fetched and not empty, and
`getInstanceID`, `prepareSetEffecterReq` (locate, build and encode),
`openTransport` and `pldm_transport_send_msg` each succeed in turn. -/
def StepsSucceed (env : Env) (funcNumber : Nat) (s : PldmFramework) : Prop :=
  ∃ (pdrs : PdrList) (h : pdrs ≠ []) (id : Nat) (packet : PldmPacket) (fd : Int),
    env.getPDR = .ok pdrs ∧
    (getInstanceID env s).result = .ok id ∧
    (prepareSetEffecterReq env pdrs h id funcNumber (getInstanceID env s).state).result =
      .ok packet ∧
    (openTransport env
      (prepareSetEffecterReq env pdrs h id funcNumber (getInstanceID env s).state).state).result =
      .ok fd ∧
    env.pldm_transport_send_msg packet = PLDM_REQUESTER_SUCCESS

/-- An environment whose allocator answers Busy (`-EAGAIN`) to every call. -/
def envBusy : Env :=
  { envAllOk [pdrMarkerFirst] with
    pldm_instance_id_alloc := fun _ id => (-11, id)
    pldm_instance_id_free := fun _ => -11 }

/-- An event that is neither a cleanup call nor a diagnostic. -/
def Event.isPlain (e : Event) : Bool :=
  !e.isCleanupCall && !e.isDiagnostic

/-! ## Locator and state-field loop: lemmas -/

theorem find_range_const (n : Nat) (b : Bool) :
    (List.range n).find? (fun _ => b) = if b = true ∧ 0 < n then some 0 else none := by
  cases b with
  | false => simp
  | true =>
      cases n with
      | zero => simp
      | succ n => simp [List.range_succ_eq_map]

/-- What the locator computes: it succeeds exactly when the record declares at
least one field and the first possible-states entry carries the marker, and
then it reports position 0. -/
theorem fetchPanelEffecterStateSet_eq (pdrs : PdrList) (h : pdrs ≠ []) :
    fetchPanelEffecterStateSet pdrs h =
      if (pdrs.head h).possible_states.state_set_id = stateIdToEnablePanelFunc ∧
          0 < (pdrs.head h).composite_effecter_count then
        .ok { effecterId := (pdrs.head h).effecter_id
              effecterCount := (pdrs.head h).composite_effecter_count
              panelEffecterPos := 0 }
      else .error effecterNotFound := by
  unfold fetchPanelEffecterStateSet
  simp only [find_range_const]
  by_cases h1 : (pdrs.head h).possible_states.state_set_id = stateIdToEnablePanelFunc <;>
    by_cases h2 : 0 < (pdrs.head h).composite_effecter_count <;> simp [h1, h2]

/-- When the marker is the first entry of a record that declares at least one
field, the locator reports position 0, the declared count and the effecter id
of the record. -/
theorem fetchPanelEffecterStateSet_marker_first (pdrs : PdrList) (h : pdrs ≠ [])
    (hfirst : (pdrs.head h).possible_states.state_set_id = stateIdToEnablePanelFunc)
    (hcount : 0 < (pdrs.head h).composite_effecter_count) :
    fetchPanelEffecterStateSet pdrs h =
      .ok { effecterId := (pdrs.head h).effecter_id
            effecterCount := (pdrs.head h).composite_effecter_count
            panelEffecterPos := 0 } := by
  rw [fetchPanelEffecterStateSet_eq, if_pos ⟨hfirst, hcount⟩]

/-- When the target position exceeds the count the loop body never runs and
the vector stays empty. -/
theorem buildStateField_of_gt (c p f : Nat) (h : c < p) : buildStateField c p f = some [] := by
  unfold buildStateField stateFieldLoop
  rw [if_neg (by omega)]

/-- The loop, started at a position not beyond the target, emits `NoChange`
up to the target and then `RequestSet`, when the fuel covers the distance. -/
theorem stateFieldLoop_reaches (c p f : Nat) (hpc : p ≤ c) (hp : p < 256) :
    ∀ (fuel pos : Nat) (acc : List set_effecter_state_field), pos ≤ p → p - pos < fuel →
      stateFieldLoop c p f fuel pos acc =
        some (acc ++ List.replicate (p - pos) NoChange ++ [RequestSet f]) := by
  intro fuel
  induction fuel with
  | zero => intro pos acc _ h; omega
  | succ fuel ih =>
      intro pos acc hpos hfuel
      unfold stateFieldLoop
      simp only [hpc, if_true]
      by_cases hEq : pos = p
      · subst hEq; simp
      · have hlt : pos < p := by omega
        have hmod : (pos + 1) % 256 = pos + 1 := Nat.mod_eq_of_lt (by omega)
        simp only [hEq, if_false, hmod]
        rw [ih (pos + 1) (acc ++ [NoChange]) (by omega) (by omega)]
        have : p - pos = (p - (pos + 1)) + 1 := by omega
        rw [this, List.replicate_succ]
        simp

/-- The vector built for a byte-sized target position within the count. -/
theorem buildStateField_eq (c p f : Nat) (hpc : p ≤ c) (hp : p < 256) :
    buildStateField c p f = some (List.replicate p NoChange ++ [RequestSet f]) := by
  unfold buildStateField
  rw [stateFieldLoop_reaches c p f hpc hp 257 0 [] (by omega) (by omega)]
  simp

/-- C1: the marker of `pdrMarkerSecond`, a well-formed record, first occurs at
position 1 of 2, where the locator should report position 1; the code tests
only the first entry at every offset and throws `effecterNotFound`. -/
theorem fetchPanelEffecterStateSet_marker_at_1_not_found :
    pdrMarkerSecond.WellFormed ∧
      pdrMarkerSecond.stateSetIds.indexOf stateIdToEnablePanelFunc = 1 ∧
      1 < pdrMarkerSecond.composite_effecter_count ∧
      fetchPanelEffecterStateSet [pdrMarkerSecond] (List.cons_ne_nil _ _) =
        .error effecterNotFound := by
  refine ⟨by decide, by decide, by decide, rfl⟩

/-- C2: for count 3 the built vector should have 3 entries; the loop stops at
the `RequestSet` entry, so for target position 1 and function 5 it builds 2
entries, and for `pdrMarkerFirst` (count 3, marker at position 0) the encoder
is handed a one-entry vector together with the count 3. -/
theorem prepareSetEffecterReq_stateField_shorter_than_count :
    buildStateField 3 1 5 = some [NoChange, RequestSet 5] ∧
      (prepareSetEffecterReq (envAllOk [pdrMarkerFirst]) [pdrMarkerFirst]
          (List.cons_ne_nil _ _) 4 5 PldmFramework.init).trace =
        [Event.encode_set_state_effecter_states_req 4 12 3 [RequestSet 5]] := by
  refine ⟨by decide, by decide⟩

/-- C10: whenever the locator succeeds, the position it reports is below the
count it reports, and the state-field loop run on these values terminates
with exactly that many `NoChange` entries followed by one `RequestSet` entry
for the function number, which is the last element. -/
theorem fetch_then_stateField (pdrs : PdrList) (h : pdrs ≠ []) (ref : EffecterRef)
    (function : Nat) (hok : fetchPanelEffecterStateSet pdrs h = .ok ref) :
    ref.panelEffecterPos < ref.effecterCount ∧
      buildStateField ref.effecterCount ref.panelEffecterPos function =
        some (List.replicate ref.panelEffecterPos NoChange ++ [RequestSet function]) := by
  rw [fetchPanelEffecterStateSet_eq] at hok
  split at hok
  · rename_i hc
    injection hok with hok
    subst hok
    exact ⟨hc.2, buildStateField_eq _ 0 function (Nat.zero_le _) (by decide)⟩
  · exact absurd hok (by simp)

/-- C10 at `pdrMarkerFirst` and function number 5. -/
theorem fetch_then_stateField_witness :
    fetchPanelEffecterStateSet [pdrMarkerFirst] (List.cons_ne_nil _ _) = .ok ⟨12, 3, 0⟩ ∧
      (0 < 3 ∧ buildStateField 3 0 5 = some (List.replicate 0 NoChange ++ [RequestSet 5])) :=
  ⟨rfl, fetch_then_stateField [pdrMarkerFirst] (List.cons_ne_nil _ _) ⟨12, 3, 0⟩ 5 rfl⟩

/-! ## Instance-id allocator -/

theorem freeIdBlock_of_ge (env : Env) (id : Nat) (h : ¬ id < constants.PLDM_INST_ID_MAX) :
    freeIdBlock env id = [] := by
  simp [freeIdBlock, h]

theorem freeIdBlock_filter_isIdFree (env : Env) (id : Nat) :
    (freeIdBlock env id).filter Event.isIdFree =
      if id < constants.PLDM_INST_ID_MAX then
        if env.pldm_instance_id_free 0 = -EAGAIN then
          [Event.pldm_instance_id_free tid id, Event.pldm_instance_id_free tid id]
        else [Event.pldm_instance_id_free tid id]
      else [] := by
  unfold freeIdBlock
  by_cases h : id < constants.PLDM_INST_ID_MAX
  · by_cases h1 : env.pldm_instance_id_free 0 = -EAGAIN
    · by_cases h2 : env.pldm_instance_id_free 1 = 0 <;>
        simp [h, h1, h2, Event.isIdFree, List.filter]
    · by_cases h2 : env.pldm_instance_id_free 0 = 0 <;>
        simp [h, h1, h2, Event.isIdFree, List.filter]
      all_goals simp_all [EAGAIN]
  · simp [h]

/-- The run of `freeInstanceID` on an open backend. -/
theorem freeInstanceID_of_open (env : Env) (id : Nat) (s : PldmFramework) (db : Handle)
    (hopen : s.pldmInstanceDb = some db) :
    freeInstanceID env id s =
      { result := .ok ()
        state := { s with pldmInstanceDb := none }
        trace := freeIdBlock env id ++ [Event.pldm_instance_db_destroy] ++
          (if env.pldm_instance_db_destroy ≠ 0 then
            [Event.cerr ("pldm_instance_db_destroy failed with rc, " ++
              toString env.pldm_instance_db_destroy ++ "\n")]
          else []) } := by
  unfold freeInstanceID
  rw [hopen]

theorem freeIdBlock_filter_isDbDestroy (env : Env) (id : Nat) :
    (freeIdBlock env id).filter Event.isDbDestroy = [] := by
  unfold freeIdBlock
  by_cases h : id < constants.PLDM_INST_ID_MAX
  · by_cases h1 : env.pldm_instance_id_free 0 = -EAGAIN
    · by_cases h2 : env.pldm_instance_id_free 1 = 0 <;>
        simp [h, h1, h2, Event.isDbDestroy, List.filter]
    · by_cases h2 : env.pldm_instance_id_free 0 = 0 <;>
        simp [h, h1, h2, Event.isDbDestroy, List.filter]
  · simp [h]

/-- C7: on an open backend, for every id and every result of the backend
calls, `freeInstanceID` returns normally, calls `pldm_instance_id_free` only
when the id is below `PLDM_INST_ID_MAX` (and then does call it), calls
`pldm_instance_db_destroy` exactly once, and leaves `pldmInstanceDb` null with
the other members untouched. -/
theorem freeInstanceID_open (env : Env) (id : Nat) (s : PldmFramework) (db : Handle)
    (hopen : s.pldmInstanceDb = some db) :
    (freeInstanceID env id s).result = .ok () ∧
      ((∃ e ∈ (freeInstanceID env id s).trace, e.isIdFree = true) ↔
        id < constants.PLDM_INST_ID_MAX) ∧
      ((freeInstanceID env id s).trace.filter Event.isDbDestroy).length = 1 ∧
      (freeInstanceID env id s).state.pldmInstanceDb = none ∧
      (freeInstanceID env id s).state = { s with pldmInstanceDb := none } := by
  rw [freeInstanceID_of_open env id s db hopen]
  refine ⟨rfl, ?_, ?_, rfl, rfl⟩
  · have hf := freeIdBlock_filter_isIdFree env id
    constructor
    · rintro ⟨e, he, hfree⟩
      by_contra hge
      rw [freeIdBlock_of_ge env id hge] at he
      by_cases hd : env.pldm_instance_db_destroy = 0
      · simp [hd] at he
        subst he
        simp [Event.isIdFree] at hfree
      · simp [hd] at he
        rcases he with he | he <;> subst he <;> simp [Event.isIdFree] at hfree
    · intro hlt
      refine ⟨Event.pldm_instance_id_free tid id, ?_, rfl⟩
      have hmem : Event.pldm_instance_id_free tid id ∈
          (freeIdBlock env id).filter Event.isIdFree := by
        rw [hf]
        by_cases h1 : env.pldm_instance_id_free 0 = -EAGAIN <;> simp [hlt, h1]
      have := (List.mem_filter.mp hmem).1
      simp [this]
  · simp only [List.filter_append, freeIdBlock_filter_isDbDestroy]
    by_cases hd : env.pldm_instance_db_destroy = 0 <;>
      simp [hd, Event.isDbDestroy, List.filter]

/-- C7 at an open backend and the sentinel id 33 with a failing destroy. -/
theorem freeInstanceID_open_witness :
    (freeInstanceID { envAllOk [] with pldm_instance_db_destroy := -5 } 33
        ⟨some 1, none, none⟩).result = .ok () ∧
      ((∃ e ∈ (freeInstanceID { envAllOk [] with pldm_instance_db_destroy := -5 } 33
          ⟨some 1, none, none⟩).trace, e.isIdFree = true) ↔
        33 < constants.PLDM_INST_ID_MAX) ∧
      ((freeInstanceID { envAllOk [] with pldm_instance_db_destroy := -5 } 33
          ⟨some 1, none, none⟩).trace.filter Event.isDbDestroy).length = 1 ∧
      (freeInstanceID { envAllOk [] with pldm_instance_db_destroy := -5 } 33
          ⟨some 1, none, none⟩).state.pldmInstanceDb = none ∧
      (freeInstanceID { envAllOk [] with pldm_instance_db_destroy := -5 } 33
          ⟨some 1, none, none⟩).state =
        { (⟨some 1, none, none⟩ : PldmFramework) with pldmInstanceDb := none } :=
  freeInstanceID_open { envAllOk [] with pldm_instance_db_destroy := -5 } 33
    ⟨some 1, none, none⟩ 1 rfl

/-- After `freeInstanceID` the backend pointer is null, whatever the state
before. -/
theorem freeInstanceID_closes (env : Env) (id : Nat) (s : PldmFramework) :
    (freeInstanceID env id s).state = { s with pldmInstanceDb := none } := by
  unfold freeInstanceID
  cases h : s.pldmInstanceDb with
  | none => cases s; simp_all
  | some db => simp

/-- C8: on a closed allocator `freeInstanceID` returns normally, emits nothing
and leaves the state as it is; and for every state, ids `i`, `j` and backend
results, a second call after a first one returns normally, emits nothing and
ends in the state the first call left, the first call having returned
normally as well. -/
theorem freeInstanceID_idempotent (env env2 : Env) (i j : Nat) (s : PldmFramework) :
    (freeInstanceID env i { s with pldmInstanceDb := none }).result = .ok () ∧
      (freeInstanceID env i { s with pldmInstanceDb := none }).trace = [] ∧
      (freeInstanceID env i { s with pldmInstanceDb := none }).state =
        { s with pldmInstanceDb := none } ∧
      (freeInstanceID env i s).result = .ok () ∧
      (freeInstanceID env2 j (freeInstanceID env i s).state).result = .ok () ∧
      (freeInstanceID env2 j (freeInstanceID env i s).state).trace = [] ∧
      (freeInstanceID env2 j (freeInstanceID env i s).state).state =
        (freeInstanceID env i s).state := by
  have hclosed : ∀ (e : Env) (k : Nat) (t : PldmFramework),
      freeInstanceID e k { t with pldmInstanceDb := none } =
        { result := .ok (), state := { t with pldmInstanceDb := none }, trace := [] } := by
    intro e k t
    simp [freeInstanceID]
  have hres : (freeInstanceID env i s).result = .ok () := by
    unfold freeInstanceID
    cases s.pldmInstanceDb <;> simp
  rw [freeInstanceID_closes env i s, hclosed env i s, hclosed env2 j s]
  exact ⟨rfl, rfl, rfl, hres, rfl, rfl, rfl⟩

/-- The events of `getInstanceID`. -/
theorem getInstanceID_trace (env : Env) (s : PldmFramework) :
    (getInstanceID env s).trace =
      if env.pldm_instance_db_init_default.1 ≠ 0 then [Event.pldm_instance_db_init_default]
      else if (env.pldm_instance_id_alloc 0 (constants.PLDM_INST_ID_MAX + 1)).1 = -EAGAIN then
        [Event.pldm_instance_db_init_default, Event.pldm_instance_id_alloc tid,
          Event.sleep_for 100, Event.pldm_instance_id_alloc tid]
      else [Event.pldm_instance_db_init_default, Event.pldm_instance_id_alloc tid] := by
  unfold getInstanceID
  dsimp only
  split_ifs <;> rfl

/-- When `getInstanceID` fails. -/
theorem getInstanceID_raised (env : Env) (s : PldmFramework) :
    (getInstanceID env s).raised =
      if env.pldm_instance_db_init_default.1 ≠ 0 then true
      else if (env.pldm_instance_id_alloc 0 (constants.PLDM_INST_ID_MAX + 1)).1 = -EAGAIN then
        decide ((env.pldm_instance_id_alloc 1
          (env.pldm_instance_id_alloc 0 (constants.PLDM_INST_ID_MAX + 1)).2).1 ≠ 0)
      else decide ((env.pldm_instance_id_alloc 0 (constants.PLDM_INST_ID_MAX + 1)).1 ≠ 0) := by
  unfold getInstanceID Run.raised
  dsimp only
  split_ifs <;> simp_all

/-- Busy twice: `getInstanceID` calls the allocation twice with one pause of
100 ms in between and then fails. -/
theorem getInstanceID_busy_twice :
    (getInstanceID envBusy PldmFramework.init).trace =
        [Event.pldm_instance_db_init_default, Event.pldm_instance_id_alloc tid,
          Event.sleep_for 100, Event.pldm_instance_id_alloc tid] ∧
      (getInstanceID envBusy PldmFramework.init).raised = true := by
  refine ⟨by decide, by decide⟩

/-- C9: `getInstanceID` calls `pldm_instance_id_alloc` at most twice.  When
the db init fails it makes no such call and fails.  Otherwise it makes a
first call, makes a second one exactly when the first returned `-EAGAIN`, and
fails exactly when the last call made returned non-zero.  `freeInstanceID`
calls `pldm_instance_id_free` at most twice, at least once exactly when the
backend is open and the id is in range, and a second time exactly when in
addition the first call returned `-EAGAIN`. -/
theorem busy_retry_once (env : Env) (s : PldmFramework) (id : Nat) :
    ((getInstanceID env s).trace.filter Event.isIdAlloc).length ≤ 2 ∧
      (if env.pldm_instance_db_init_default.1 ≠ 0 then
        ((getInstanceID env s).trace.filter Event.isIdAlloc).length = 0 ∧
          (getInstanceID env s).raised = true
      else
        1 ≤ ((getInstanceID env s).trace.filter Event.isIdAlloc).length ∧
          (((getInstanceID env s).trace.filter Event.isIdAlloc).length = 2 ↔
            (env.pldm_instance_id_alloc 0 (constants.PLDM_INST_ID_MAX + 1)).1 = -EAGAIN) ∧
          ((getInstanceID env s).raised = true ↔
            (if (env.pldm_instance_id_alloc 0 (constants.PLDM_INST_ID_MAX + 1)).1 = -EAGAIN then
              (env.pldm_instance_id_alloc 1
                (env.pldm_instance_id_alloc 0 (constants.PLDM_INST_ID_MAX + 1)).2).1
            else (env.pldm_instance_id_alloc 0 (constants.PLDM_INST_ID_MAX + 1)).1) ≠ 0)) ∧
      ((freeInstanceID env id s).trace.filter Event.isIdFree).length ≤ 2 ∧
      (1 ≤ ((freeInstanceID env id s).trace.filter Event.isIdFree).length ↔
        s.pldmInstanceDb ≠ none ∧ id < constants.PLDM_INST_ID_MAX) ∧
      (((freeInstanceID env id s).trace.filter Event.isIdFree).length = 2 ↔
        s.pldmInstanceDb ≠ none ∧ id < constants.PLDM_INST_ID_MAX ∧
          env.pldm_instance_id_free 0 = -EAGAIN) := by
  have hfree : (freeInstanceID env id s).trace.filter Event.isIdFree =
      if s.pldmInstanceDb ≠ none then (freeIdBlock env id).filter Event.isIdFree else [] := by
    cases hdb : s.pldmInstanceDb with
    | none => simp [freeInstanceID, hdb]
    | some db =>
        rw [freeInstanceID_of_open env id s db hdb]
        by_cases hd : env.pldm_instance_db_destroy = 0 <;>
          simp [hd, List.filter_append, Event.isIdFree, List.filter]
  refine ⟨?_, ?_, ?_, ?_, ?_⟩
  · rw [getInstanceID_trace]
    split_ifs <;> simp [List.filter, Event.isIdAlloc]
  · rw [getInstanceID_trace, getInstanceID_raised]
    split_ifs <;> simp_all [List.filter, Event.isIdAlloc]
  · rw [hfree, freeIdBlock_filter_isIdFree]
    split_ifs <;> simp
  · rw [hfree, freeIdBlock_filter_isIdFree]
    split_ifs <;> simp_all
  · rw [hfree, freeIdBlock_filter_isIdFree]
    split_ifs <;> simp_all

/-! ## Dispatcher: lemmas -/

/-- The run of `prepareSetEffecterReq`, with the locator and the state-field
loop evaluated. -/
theorem prepareSetEffecterReq_eq (env : Env) (pdrs : PdrList) (h : pdrs ≠ [])
    (instanceId function : Nat) (s : PldmFramework) :
    prepareSetEffecterReq env pdrs h instanceId function s =
      if (pdrs.head h).possible_states.state_set_id = stateIdToEnablePanelFunc ∧
          0 < (pdrs.head h).composite_effecter_count then
        if (env.encode_set_state_effecter_states_req instanceId (pdrs.head h).effecter_id
            (pdrs.head h).composite_effecter_count [RequestSet function]).1 ≠ PLDM_SUCCESS then
          { result := .error (.thrown ⟨ExnKind.FunctionFailure,
              "pldm: encode set effecter states request returned error."⟩)
            state := s
            trace := [Event.encode_set_state_effecter_states_req instanceId
                (pdrs.head h).effecter_id (pdrs.head h).composite_effecter_count
                [RequestSet function],
              Event.cerr ("Return code = " ++ toString
                (env.encode_set_state_effecter_states_req instanceId (pdrs.head h).effecter_id
                  (pdrs.head h).composite_effecter_count [RequestSet function]).1)] }
        else
          { result := .ok (writeMsg
              (List.replicate (sizeof_pldm_msg_hdr + 2 + 1 +
                (pdrs.head h).composite_effecter_count * sizeof_set_effecter_state_field) 0)
              (env.encode_set_state_effecter_states_req instanceId (pdrs.head h).effecter_id
                (pdrs.head h).composite_effecter_count [RequestSet function]).2)
            state := s
            trace := [Event.encode_set_state_effecter_states_req instanceId
              (pdrs.head h).effecter_id (pdrs.head h).composite_effecter_count
              [RequestSet function]] }
      else { result := .error (.thrown effecterNotFound), state := s, trace := [] } := by
  unfold prepareSetEffecterReq
  rw [fetchPanelEffecterStateSet_eq]
  by_cases hc : (pdrs.head h).possible_states.state_set_id = stateIdToEnablePanelFunc ∧
      0 < (pdrs.head h).composite_effecter_count
  · simp only [hc, and_self, if_true]
    rw [buildStateField_eq _ 0 function (Nat.zero_le _) (by decide)]
    simp only [List.replicate_zero, List.nil_append]
  · simp only [hc, if_false]

/-- The packet returned by `prepareSetEffecterReq` is never empty. -/
theorem writeMsg_length (request msg : PldmPacket) :
    (writeMsg request msg).length = request.length := by
  unfold writeMsg
  simp only [List.length_take, List.length_append, List.length_drop]
  omega

/-- The state is not touched by `prepareSetEffecterReq`. -/
theorem prepareSetEffecterReq_state (env : Env) (pdrs : PdrList) (h : pdrs ≠ [])
    (instanceId function : Nat) (s : PldmFramework) :
    (prepareSetEffecterReq env pdrs h instanceId function s).state = s := by
  rw [prepareSetEffecterReq_eq]
  split_ifs <;> rfl

theorem prepareSetEffecterReq_packet_ne_nil (env : Env) (pdrs : PdrList) (h : pdrs ≠ [])
    (instanceId function : Nat) (s : PldmFramework) (packet : PldmPacket)
    (hok : (prepareSetEffecterReq env pdrs h instanceId function s).result = .ok packet) :
    packet ≠ [] := by
  rw [prepareSetEffecterReq_eq] at hok
  split_ifs at hok
  all_goals try (simp only [Except.ok.injEq] at hok)
  intro hnil
  have hlen := writeMsg_length
    (List.replicate (sizeof_pldm_msg_hdr + 2 + 1 +
      (pdrs.head h).composite_effecter_count * sizeof_set_effecter_state_field) 0)
    (env.encode_set_state_effecter_states_req instanceId (pdrs.head h).effecter_id
      (pdrs.head h).composite_effecter_count [RequestSet function]).2
  rw [hok, hnil] at hlen
  simp only [List.length_nil, List.length_replicate, sizeof_pldm_msg_hdr] at hlen
  omega

theorem getInstanceID_ne_outOfFuel (env : Env) (s : PldmFramework) :
    (getInstanceID env s).result ≠ .error .outOfFuel := by
  unfold getInstanceID
  dsimp only
  split_ifs <;> simp

theorem prepareSetEffecterReq_ne_outOfFuel (env : Env) (pdrs : PdrList) (h : pdrs ≠ [])
    (instanceId function : Nat) (s : PldmFramework) :
    (prepareSetEffecterReq env pdrs h instanceId function s).result ≠ .error .outOfFuel := by
  rw [prepareSetEffecterReq_eq]
  split_ifs <;> simp

theorem openTransport_ne_outOfFuel (env : Env) (s : PldmFramework) :
    (openTransport env s).result ≠ .error .outOfFuel := by
  unfold openTransport
  dsimp only
  repeat' split
  all_goals simp

theorem tryBlock_ne_outOfFuel (env : Env) (funcNumber i : Nat) (s : PldmFramework) :
    (sendPanelFunctionToPhyp.tryBlock env funcNumber i s).result ≠ .error .outOfFuel := by
  unfold sendPanelFunctionToPhyp.tryBlock
  dsimp only [utils.getPDR]
  repeat' split
  all_goals first
    | simp; done
    | (rename_i hf; intro hc; simp only [Except.error.injEq] at hc; subst hc
       first
        | exact getInstanceID_ne_outOfFuel _ _ hf
        | exact prepareSetEffecterReq_ne_outOfFuel _ _ _ _ _ _ hf
        | exact openTransport_ne_outOfFuel _ _ hf)

/-- No event of `getInstanceID` is a cleanup call or a diagnostic. -/
theorem getInstanceID_trace_plain (env : Env) (s : PldmFramework) :
    (getInstanceID env s).trace.all Event.isPlain = true := by
  rw [getInstanceID_trace]
  split_ifs <;> simp [Event.isPlain, Event.isCleanupCall, Event.isDiagnostic]

/-- No event of `prepareSetEffecterReq` is a cleanup call or a diagnostic. -/
theorem prepareSetEffecterReq_trace_plain (env : Env) (pdrs : PdrList) (h : pdrs ≠ [])
    (instanceId function : Nat) (s : PldmFramework) :
    (prepareSetEffecterReq env pdrs h instanceId function s).trace.all
      Event.isPlain = true := by
  rw [prepareSetEffecterReq_eq]
  split_ifs <;> simp [Event.isPlain, Event.isCleanupCall, Event.isDiagnostic]

/-- No event of `openTransport` is a cleanup call or a diagnostic. -/
theorem openTransport_trace_plain (env : Env) (s : PldmFramework) :
    (openTransport env s).trace.all Event.isPlain = true := by
  unfold openTransport
  dsimp only
  repeat' split
  all_goals simp [Event.isPlain, Event.isCleanupCall, Event.isDiagnostic]

/-- No event of the `try` block is a cleanup call or a diagnostic. -/
theorem tryBlock_trace_plain (env : Env) (funcNumber i : Nat) (s : PldmFramework) :
    (sendPanelFunctionToPhyp.tryBlock env funcNumber i s).trace.all
      Event.isPlain = true := by
  have h1 := getInstanceID_trace_plain env s
  unfold sendPanelFunctionToPhyp.tryBlock
  dsimp only [utils.getPDR]
  repeat' split
  all_goals
    simp only [List.all_append, List.all_cons, List.all_nil, Bool.and_true, Bool.and_eq_true,
      h1, prepareSetEffecterReq_trace_plain, openTransport_trace_plain, Event.isPlain,
      Event.isCleanupCall, Event.isDiagnostic, Bool.not_false, and_self]

theorem filter_eq_nil_of_all_plain_cleanup (l : List Event)
    (h : l.all Event.isPlain = true) :
    l.filter Event.isCleanupCall = [] ∧ l.filter Event.isDiagnostic = [] := by
  simp only [List.all_eq_true, Event.isPlain, Bool.and_eq_true, Bool.not_eq_true'] at h
  constructor
  · rw [List.filter_eq_nil_iff]
    intro e he
    simp [(h e he).1]
  · rw [List.filter_eq_nil_iff]
    intro e he
    simp [(h e he).2]

/-- The local variable `instance` at the end of the `try` block. -/
theorem tryBlock_instanceId (env : Env) (funcNumber : Nat) (s : PldmFramework) :
    (sendPanelFunctionToPhyp.tryBlock env funcNumber (constants.PLDM_INST_ID_MAX + 1)
      s).instanceId = heldInstanceId env s := by
  unfold sendPanelFunctionToPhyp.tryBlock heldInstanceId
  dsimp only [utils.getPDR]
  cases hp : env.getPDR with
  | error e => rfl
  | ok pdrs =>
      cases pdrs with
      | nil => simp
      | cons pdr rest =>
          simp only [List.cons_ne_nil, dite_false]
          repeat' split
          all_goals simp_all

/-- The events of `closeTransport` are not cleanup calls or diagnostics. -/
theorem closeTransport_trace_plain (s : PldmFramework) :
    (closeTransport s).trace.all Event.isPlain = true := by
  unfold closeTransport
  dsimp only
  split <;> simp [Event.isPlain, Event.isCleanupCall, Event.isDiagnostic]

theorem freeIdBlock_plain (env : Env) (id : Nat) :
    (freeIdBlock env id).all Event.isPlain = true := by
  unfold freeIdBlock
  dsimp only
  split_ifs <;> simp [Event.isPlain, Event.isCleanupCall, Event.isDiagnostic]

/-- The events of `freeInstanceID` are not cleanup calls or diagnostics. -/
theorem freeInstanceID_trace_plain (env : Env) (id : Nat) (s : PldmFramework) :
    (freeInstanceID env id s).trace.all Event.isPlain = true := by
  unfold freeInstanceID
  dsimp only
  split
  · rfl
  · split_ifs <;>
      simp [List.all_append, freeIdBlock_plain, Event.isPlain, Event.isCleanupCall,
        Event.isDiagnostic]

/-- The run of `sendPanelFunctionToPhyp` in terms of its `try` block: the
handler, `closeTransport` and `freeInstanceID` always follow. -/
theorem sendPanelFunctionToPhyp_eq (env : Env) (funcNumber : Nat) (s : PldmFramework) :
    sendPanelFunctionToPhyp env funcNumber s =
      { result := .ok ()
        state := (freeInstanceID env
          (sendPanelFunctionToPhyp.tryBlock env funcNumber
            (constants.PLDM_INST_ID_MAX + 1) s).instanceId
          (closeTransport (sendPanelFunctionToPhyp.tryBlock env funcNumber
            (constants.PLDM_INST_ID_MAX + 1) s).state).state).state
        trace :=
          (sendPanelFunctionToPhyp.tryBlock env funcNumber
            (constants.PLDM_INST_ID_MAX + 1) s).trace ++
          (match (sendPanelFunctionToPhyp.tryBlock env funcNumber
              (constants.PLDM_INST_ID_MAX + 1) s).result with
            | .error (.thrown e) => [hostCommunicationError env e]
            | _ => []) ++
          [Event.call Method.closeTransport] ++
          (closeTransport (sendPanelFunctionToPhyp.tryBlock env funcNumber
            (constants.PLDM_INST_ID_MAX + 1) s).state).trace ++
          [Event.call (Method.freeInstanceID (sendPanelFunctionToPhyp.tryBlock env funcNumber
            (constants.PLDM_INST_ID_MAX + 1) s).instanceId)] ++
          (freeInstanceID env
            (sendPanelFunctionToPhyp.tryBlock env funcNumber
              (constants.PLDM_INST_ID_MAX + 1) s).instanceId
            (closeTransport (sendPanelFunctionToPhyp.tryBlock env funcNumber
              (constants.PLDM_INST_ID_MAX + 1) s).state).state).trace } := by
  have hne := tryBlock_ne_outOfFuel env funcNumber (constants.PLDM_INST_ID_MAX + 1) s
  unfold sendPanelFunctionToPhyp
  dsimp only
  split
  · rename_i hf
    exact absurd hf hne
  · rfl

/-- The `try` block ends without an exception exactly when steps 1-6 all
succeed. -/
theorem tryBlock_ok_iff (env : Env) (funcNumber i : Nat) (s : PldmFramework) :
    (sendPanelFunctionToPhyp.tryBlock env funcNumber i s).result = .ok () ↔
      StepsSucceed env funcNumber s := by
  constructor
  · intro hok
    unfold sendPanelFunctionToPhyp.tryBlock at hok
    dsimp only [utils.getPDR] at hok
    repeat' split at hok
    all_goals try (simp at hok; done)
    rename_i _ pdrs hp hne _ id hid _ packet hpk _ _ fd hfd hrc
    exact ⟨pdrs, hne, id, packet, fd, hp, hid, hpk, hfd, by simpa using hrc⟩
  · rintro ⟨pdrs, hne, id, packet, fd, hp, hid, hpk, hfd, hrc⟩
    have hpacket := prepareSetEffecterReq_packet_ne_nil env pdrs hne id funcNumber _ packet hpk
    unfold sendPanelFunctionToPhyp.tryBlock
    dsimp only [utils.getPDR]
    simp only [hp, hne, dite_false, hid, hpk, hpacket, if_false, hfd, hrc, ne_eq,
      not_true_eq_false]

/-- The state after `closeTransport`: both transport pointers are null. -/
theorem closeTransport_state (s : PldmFramework) :
    (closeTransport s).state = { s with pldmTransport := none, mctpSocket := none } := by
  unfold closeTransport
  cases s with
  | mk db tr sock => cases tr <;> cases sock <;> rfl

/-- Every run of `sendPanelFunctionToPhyp` ends in the state of a freshly
constructed object, so every later call starts with the allocator and the
transport closed. -/
theorem sendPanelFunctionToPhyp_state (env : Env) (funcNumber : Nat) (s : PldmFramework) :
    (sendPanelFunctionToPhyp env funcNumber s).state = PldmFramework.init := by
  rw [sendPanelFunctionToPhyp_eq]
  dsimp only
  rw [freeInstanceID_closes, closeTransport_state]
  rfl

/-! ## Dispatcher: the claims -/

/-- C3: for every function number, every object state and every result of
the external calls (each may succeed or fail), `sendPanelFunctionToPhyp`
returns normally: no exception leaves it and its loops terminate. -/
theorem sendPanelFunctionToPhyp_returns (env : Env) (funcNumber : Nat) (s : PldmFramework) :
    (sendPanelFunctionToPhyp env funcNumber s).result = .ok () := by
  rw [sendPanelFunctionToPhyp_eq]

/-- C4: in every run of `sendPanelFunctionToPhyp` the calls of the cleanup
member functions are exactly `closeTransport` followed by `freeInstanceID`,
once each, and `freeInstanceID` receives the id returned by `getInstanceID`
when that call was made and returned, and `PLDM_INST_ID_MAX + 1` otherwise. -/
theorem sendPanelFunctionToPhyp_cleanup (env : Env) (funcNumber : Nat) (s : PldmFramework) :
    (sendPanelFunctionToPhyp env funcNumber s).trace.filter Event.isCleanupCall =
      [Event.call Method.closeTransport,
        Event.call (Method.freeInstanceID (heldInstanceId env s))] := by
  rw [sendPanelFunctionToPhyp_eq, tryBlock_instanceId]
  have ht := (filter_eq_nil_of_all_plain_cleanup _
    (tryBlock_trace_plain env funcNumber (constants.PLDM_INST_ID_MAX + 1) s)).1
  have hc := fun t => (filter_eq_nil_of_all_plain_cleanup _ (closeTransport_trace_plain t)).1
  have hf := fun i t => (filter_eq_nil_of_all_plain_cleanup _
    (freeInstanceID_trace_plain env i t)).1
  simp only [List.filter_append, ht, hc, hf, List.nil_append, List.append_nil]
  split <;> simp [List.filter, Event.isCleanupCall, hostCommunicationError]

/-- C5 as stated fails: with `utils::getPDR` returning the record
`pdrNoMarker` (non-empty, marker absent) and every external call succeeding,
the run performs four instance-id allocator operations. -/
theorem marker_absent_allocator_used :
    (envAllOk [pdrNoMarker]).getPDR = .ok [pdrNoMarker] ∧
      stateIdToEnablePanelFunc ∉ pdrNoMarker.stateSetIds ∧
      (sendPanelFunctionToPhyp (envAllOk [pdrNoMarker]) 5 PldmFramework.init).trace.filter
          Event.isAllocatorOp =
        [Event.pldm_instance_db_init_default, Event.pldm_instance_id_alloc 9,
          Event.pldm_instance_id_free 9 4, Event.pldm_instance_db_destroy] := by
  refine ⟨rfl, by decide, by decide⟩

/-- C5, amended: when the fetched PDR list is not empty, its first record
does not contain the marker, `getInstanceID` succeeds with `id` and the
transport is closed at entry, `sendPanelFunctionToPhyp` returns normally; its
run is the PDR fetch, the run of `getInstanceID`, the call of
`prepareSetEffecterReq`, one report of the `effecterNotFound` failure to
`createPEL`, and the cleanup calls with the run of `freeInstanceID` on `id`;
it contains no transport operation and no encoder call. -/
theorem sendPanelFunctionToPhyp_marker_absent (env : Env) (funcNumber : Nat)
    (s : PldmFramework) (pdrs : PdrList) (h : pdrs ≠ []) (id : Nat)
    (hpdr : env.getPDR = .ok pdrs)
    (habsent : stateIdToEnablePanelFunc ∉ (pdrs.head h).stateSetIds)
    (hid : (getInstanceID env s).result = .ok id)
    (hclosed : s.mctpSocket = none) :
    (sendPanelFunctionToPhyp env funcNumber s).result = .ok () ∧
      (sendPanelFunctionToPhyp env funcNumber s).trace =
        [Event.getPDR phypTerminusID frontPanelBoardEntityId stateIdToEnablePanelFunc
            "FindStateEffecterPDR",
          Event.call Method.getInstanceID] ++ (getInstanceID env s).trace ++
        [Event.call (Method.prepareSetEffecterReq id funcNumber),
          hostCommunicationError env effecterNotFound,
          Event.call Method.closeTransport,
          Event.call (Method.freeInstanceID id)] ++
        (freeInstanceID env id (closeTransport (getInstanceID env s).state).state).trace ∧
      (sendPanelFunctionToPhyp env funcNumber s).trace.filter Event.isDiagnostic =
        [hostCommunicationError env effecterNotFound] ∧
      (sendPanelFunctionToPhyp env funcNumber s).trace.filter Event.isTransportOp = [] ∧
      (sendPanelFunctionToPhyp env funcNumber s).trace.filter Event.isEncode = [] := by
  have hfirst : ¬ ((pdrs.head h).possible_states.state_set_id = stateIdToEnablePanelFunc ∧
      0 < (pdrs.head h).composite_effecter_count) := by
    intro hc
    apply habsent
    simp [pldm_state_effecter_pdr.stateSetIds, pldm_state_effecter_pdr.stateSets, hc.1]
  have hprep : prepareSetEffecterReq env pdrs h id funcNumber (getInstanceID env s).state =
      { result := .error (.thrown effecterNotFound), state := (getInstanceID env s).state,
        trace := [] } := by
    rw [prepareSetEffecterReq_eq, if_neg hfirst]
  have htry : sendPanelFunctionToPhyp.tryBlock env funcNumber
      (constants.PLDM_INST_ID_MAX + 1) s =
      { result := .error (.thrown effecterNotFound)
        instanceId := id
        state := (getInstanceID env s).state
        trace := [Event.getPDR phypTerminusID frontPanelBoardEntityId stateIdToEnablePanelFunc
            "FindStateEffecterPDR"] ++
          [Event.call Method.getInstanceID] ++ (getInstanceID env s).trace ++
          [Event.call (Method.prepareSetEffecterReq id funcNumber)] ++ [] } := by
    unfold sendPanelFunctionToPhyp.tryBlock
    dsimp only [utils.getPDR]
    simp only [hpdr, h, dite_false, hid, hprep]
  have hsock : (getInstanceID env s).state.mctpSocket = none := by
    rw [← hclosed]
    unfold getInstanceID
    dsimp only
    split_ifs <;> rfl
  have hct : (closeTransport (getInstanceID env s).state).trace = [] := by
    unfold closeTransport
    dsimp only
    rw [hsock]
  have hgT := getInstanceID_trace env s
  have hfT : ∀ t, (freeInstanceID env id t).trace.filter Event.isTransportOp = [] ∧
      (freeInstanceID env id t).trace.filter Event.isEncode = [] ∧
      (freeInstanceID env id t).trace.filter Event.isDiagnostic = [] := by
    intro t
    unfold freeInstanceID freeIdBlock
    dsimp only
    split
    · exact ⟨rfl, rfl, rfl⟩
    · split_ifs <;>
        simp [List.filter, Event.isTransportOp, Event.isEncode, Event.isDiagnostic]
  have hgF : (getInstanceID env s).trace.filter Event.isTransportOp = [] ∧
      (getInstanceID env s).trace.filter Event.isEncode = [] ∧
      (getInstanceID env s).trace.filter Event.isDiagnostic = [] := by
    rw [hgT]
    split_ifs <;> simp [List.filter, Event.isTransportOp, Event.isEncode, Event.isDiagnostic]
  rw [sendPanelFunctionToPhyp_eq, htry]
  dsimp only
  rw [hct]
  refine ⟨rfl, by simp, ?_, ?_, ?_⟩
  · simp [List.filter_append, hgF, hfT, List.filter, Event.isDiagnostic,
      hostCommunicationError]
  · simp [List.filter_append, hgF, hfT, List.filter, Event.isTransportOp,
      hostCommunicationError]
  · simp [List.filter_append, hgF, hfT, List.filter, Event.isEncode,
      hostCommunicationError]

/-- C5, amended, at `pdrNoMarker` with every external call succeeding. -/
theorem sendPanelFunctionToPhyp_marker_absent_witness :
    (sendPanelFunctionToPhyp (envAllOk [pdrNoMarker]) 5 PldmFramework.init).result = .ok () ∧
      (sendPanelFunctionToPhyp (envAllOk [pdrNoMarker]) 5 PldmFramework.init).trace =
        [Event.getPDR phypTerminusID frontPanelBoardEntityId stateIdToEnablePanelFunc
            "FindStateEffecterPDR",
          Event.call Method.getInstanceID] ++
        (getInstanceID (envAllOk [pdrNoMarker]) PldmFramework.init).trace ++
        [Event.call (Method.prepareSetEffecterReq 4 5),
          hostCommunicationError (envAllOk [pdrNoMarker]) effecterNotFound,
          Event.call Method.closeTransport,
          Event.call (Method.freeInstanceID 4)] ++
        (freeInstanceID (envAllOk [pdrNoMarker]) 4
          (closeTransport
            (getInstanceID (envAllOk [pdrNoMarker]) PldmFramework.init).state).state).trace ∧
      (sendPanelFunctionToPhyp (envAllOk [pdrNoMarker]) 5 PldmFramework.init).trace.filter
          Event.isDiagnostic =
        [hostCommunicationError (envAllOk [pdrNoMarker]) effecterNotFound] ∧
      (sendPanelFunctionToPhyp (envAllOk [pdrNoMarker]) 5 PldmFramework.init).trace.filter
          Event.isTransportOp = [] ∧
      (sendPanelFunctionToPhyp (envAllOk [pdrNoMarker]) 5 PldmFramework.init).trace.filter
          Event.isEncode = [] :=
  sendPanelFunctionToPhyp_marker_absent (envAllOk [pdrNoMarker]) 5 PldmFramework.init
    [pdrNoMarker] (List.cons_ne_nil _ _) 4 rfl (by decide) rfl rfl

/-- C6: `sendPanelFunctionToPhyp` reports at most one diagnostic, and none
exactly when steps 1-6 all succeed; so it reports exactly one whenever one of
them fails.  When `utils::getPDR` returns an empty list and the allocator and
the transport are closed at entry, the call returns normally and its whole run
is the PDR fetch, one `createPEL` whose description names the empty PDR, and
the two cleanup calls, which reach no backend. -/
theorem sendPanelFunctionToPhyp_diagnostics (env : Env) (funcNumber : Nat)
    (s : PldmFramework) :
    ((sendPanelFunctionToPhyp env funcNumber s).trace.filter Event.isDiagnostic).length ≤ 1 ∧
      (((sendPanelFunctionToPhyp env funcNumber s).trace.filter Event.isDiagnostic).length = 0 ↔
        StepsSucceed env funcNumber s) ∧
      (env.getPDR = .ok [] → s.pldmInstanceDb = none → s.mctpSocket = none →
        (sendPanelFunctionToPhyp env funcNumber s).result = .ok () ∧
        (sendPanelFunctionToPhyp env funcNumber s).trace =
          [Event.getPDR phypTerminusID frontPanelBoardEntityId stateIdToEnablePanelFunc
            "FindStateEffecterPDR",
            Event.createPEL "com.ibm.Panel.Error.HostCommunicationError"
              "xyz.openbmc_project.Logging.Entry.Level.Warning"
              [("DESCRIPTION", "panel to host communication failed. Error: " ++
                  "Empty PDR returned for front panel board entity."),
                ("ERRNO:", env.strerror)],
            Event.call Method.closeTransport,
            Event.call (Method.freeInstanceID (constants.PLDM_INST_ID_MAX + 1))]) := by
  have ht := (filter_eq_nil_of_all_plain_cleanup _
    (tryBlock_trace_plain env funcNumber (constants.PLDM_INST_ID_MAX + 1) s)).2
  have hc := fun t => (filter_eq_nil_of_all_plain_cleanup _ (closeTransport_trace_plain t)).2
  have hf := fun i t => (filter_eq_nil_of_all_plain_cleanup _
    (freeInstanceID_trace_plain env i t)).2
  have hne := tryBlock_ne_outOfFuel env funcNumber (constants.PLDM_INST_ID_MAX + 1) s
  have hiff := tryBlock_ok_iff env funcNumber (constants.PLDM_INST_ID_MAX + 1) s
  refine ⟨?_, ?_, ?_⟩
  · rw [sendPanelFunctionToPhyp_eq]
    simp only [List.filter_append, ht, hc, hf, List.nil_append, List.append_nil]
    split <;> simp [List.filter, Event.isDiagnostic, hostCommunicationError]
  · rw [sendPanelFunctionToPhyp_eq, ← hiff]
    simp only [List.filter_append, ht, hc, hf, List.nil_append, List.append_nil]
    cases hres : (sendPanelFunctionToPhyp.tryBlock env funcNumber
        (constants.PLDM_INST_ID_MAX + 1) s).result with
    | ok u => simp [List.filter, Event.isDiagnostic]
    | error f =>
        cases f with
        | outOfFuel => exact absurd hres hne
        | thrown e => simp [List.filter, Event.isDiagnostic, hostCommunicationError]
  · intro hempty hdb hsock
    have htry : sendPanelFunctionToPhyp.tryBlock env funcNumber
        (constants.PLDM_INST_ID_MAX + 1) s =
        { result := .error (.thrown emptyPdr)
          instanceId := constants.PLDM_INST_ID_MAX + 1
          state := s
          trace :=
            [Event.getPDR phypTerminusID frontPanelBoardEntityId stateIdToEnablePanelFunc
            "FindStateEffecterPDR"] } := by
      unfold sendPanelFunctionToPhyp.tryBlock
      dsimp only [utils.getPDR]
      simp only [hempty, dite_true]
    have hct : (closeTransport s).trace = [] := by
      unfold closeTransport
      dsimp only
      rw [hsock]
    have hcdb : (closeTransport s).state.pldmInstanceDb = none := by
      unfold closeTransport
      dsimp only
      rw [hsock]
      cases s.pldmTransport <;> exact hdb
    have hfree : ∀ t : PldmFramework, t.pldmInstanceDb = none →
        (freeInstanceID env (constants.PLDM_INST_ID_MAX + 1) t).trace = [] := by
      intro t htdb
      unfold freeInstanceID
      rw [htdb]
    rw [sendPanelFunctionToPhyp_eq, htry]
    dsimp only
    rw [hct, hfree _ hcdb]
    exact ⟨rfl, rfl⟩

/-- C6 at an empty PDR list on the freshly constructed object. -/
theorem sendPanelFunctionToPhyp_diagnostics_witness :
    (sendPanelFunctionToPhyp (envAllOk []) 5 PldmFramework.init).result = .ok () ∧
      (sendPanelFunctionToPhyp (envAllOk []) 5 PldmFramework.init).trace =
        [Event.getPDR phypTerminusID frontPanelBoardEntityId stateIdToEnablePanelFunc
            "FindStateEffecterPDR",
          Event.createPEL "com.ibm.Panel.Error.HostCommunicationError"
            "xyz.openbmc_project.Logging.Entry.Level.Warning"
            [("DESCRIPTION", "panel to host communication failed. Error: " ++
                "Empty PDR returned for front panel board entity."),
              ("ERRNO:", (envAllOk []).strerror)],
          Event.call Method.closeTransport,
          Event.call (Method.freeInstanceID (constants.PLDM_INST_ID_MAX + 1))] :=
  (sendPanelFunctionToPhyp_diagnostics (envAllOk []) 5 PldmFramework.init).2.2 rfl rfl rfl

end panel
